import Mathlib

/-!
Verification of the GoodGit change-set summarization and commit-message
validation pipeline (src/goodgit.py).  Python strings are modelled as
`List Char`; fallible operations return `Except`/`Option` or carry explicit
success flags; the external collaborators (GitPython, the Groq client, the
Tk front end) appear as abstract parameters exactly where the source calls
them.
-/

namespace GoodGit

/-- The fixed list of Conventional-Commit type tags, from `CONVENTIONAL_TYPES`
(src/goodgit.py lines 47-51). -/
def CONVENTIONAL_TYPES : List String :=
  ["feat", "fix", "docs", "style", "refactor",
   "perf", "test", "chore", "ci", "build",
   "rename", "remove"]

/-- Matching a literal character sequence at the head of the subject,
returning the unconsumed remainder (the behaviour of a literal inside
Python `re.match`). -/
def litConsume : List Char → List Char → Option (List Char)
  | [], s => some s
  | _ :: _, [] => none
  | p :: ps, c :: cs => if p == c then litConsume ps cs else none

/-- The behaviour of the regex fragment `.+` under `re.match` without
`re.DOTALL`: it succeeds exactly when the position holds at least one
character other than a newline. -/
def matchDotPlus : List Char → Bool
  | [] => false
  | c :: _ => c != '\n'

/-- One alternative of the commit-message pattern: the literal
`<type>: ` followed by `.+`. -/
def matchTypeAlt (t : List Char) (s : List Char) : Bool :=
  match litConsume (t ++ [':', ' ']) s with
  | none => false
  | some rest => matchDotPlus rest

/-- Embedding of `is_valid_commit_message` (src/goodgit.py lines 54-65):
`re.match(r'^(feat|fix|docs|style|refactor|perf|test|chore|ci|build|rename|remove): .+', m)`
is not `None`.  The anchored alternation over literal tags succeeds exactly
when some tag alternative succeeds. -/
def is_valid_commit_message (s : List Char) : Bool :=
  CONVENTIONAL_TYPES.any (fun t => matchTypeAlt t.data s)

/-- The Conventional-Commit grammar as the specification words it: the
string starts with one of the twelve recognized type tags, a literal colon,
a single space, and at least one description (`.`-matchable) character. -/
def ConventionalMatch (s : List Char) : Prop :=
  ∃ t ∈ CONVENTIONAL_TYPES, ∃ (c : Char) (rest : List Char),
    c ≠ '\n' ∧ s = t.data ++ ':' :: ' ' :: c :: rest

lemma litConsume_self_append (p u : List Char) : litConsume p (p ++ u) = some u := by
  induction p with
  | nil => rfl
  | cons c cs ih => simp [litConsume, ih]

lemma litConsume_eq_some (p s u : List Char) :
    litConsume p s = some u ↔ s = p ++ u := by
  constructor
  · intro h
    induction p generalizing s with
    | nil => simpa [litConsume] using h
    | cons c cs ih =>
      cases s with
      | nil => simp [litConsume] at h
      | cons d ds =>
        by_cases hcd : c = d
        · subst hcd
          simp only [litConsume, beq_self_eq_true, if_true] at h
          simpa using ih ds h
        · simp [litConsume, hcd] at h
  · rintro rfl
    exact litConsume_self_append p u

lemma matchDotPlus_eq_true (u : List Char) :
    matchDotPlus u = true ↔ ∃ (c : Char) (rest : List Char), c ≠ '\n' ∧ u = c :: rest := by
  cases u with
  | nil => simp [matchDotPlus]
  | cons c rest =>
    simp only [matchDotPlus, bne_iff_ne, ne_eq]
    constructor
    · intro h; exact ⟨c, rest, h, rfl⟩
    · rintro ⟨c', rest', hc', heq⟩
      cases heq
      exact hc'

lemma matchTypeAlt_eq_true (t s : List Char) :
    matchTypeAlt t s = true ↔
      ∃ (c : Char) (rest : List Char), c ≠ '\n' ∧ s = t ++ ':' :: ' ' :: c :: rest := by
  unfold matchTypeAlt
  cases h : litConsume (t ++ [':', ' ']) s with
  | none =>
    simp only [Bool.false_eq_true, false_iff]
    rintro ⟨c, rest, _, rfl⟩
    rw [show t ++ ':' :: ' ' :: c :: rest = (t ++ [':', ' ']) ++ c :: rest by simp] at h
    rw [litConsume_self_append] at h
    exact Option.noConfusion h
  | some u =>
    rw [litConsume_eq_some] at h
    subst h
    rw [matchDotPlus_eq_true]
    constructor
    · rintro ⟨c, rest, hc, rfl⟩
      exact ⟨c, rest, hc, by simp⟩
    · rintro ⟨c, rest, hc, heq⟩
      refine ⟨c, rest, hc, ?_⟩
      have : (t ++ [':', ' ']) ++ u = (t ++ [':', ' ']) ++ c :: rest := by
        simpa using heq
      exact List.append_cancel_left this

/-- Claim C1: `is_valid_commit_message` returns true exactly when its input
matches `^(feat|fix|docs|style|refactor|perf|test|chore|ci|build|rename|remove): .+`
— a recognized tag, a colon, a single space, and at least one description
character; all twelve tags are accepted, a missing space after the colon is
rejected, an unknown type is rejected, and an empty description is rejected. -/
theorem C1_validator_grammar :
    (∀ s : List Char, is_valid_commit_message s = true ↔ ConventionalMatch s) ∧
    (CONVENTIONAL_TYPES.all
      (fun t => is_valid_commit_message (t.data ++ ": add x".data)) = true) ∧
    is_valid_commit_message "feat:add x".data = false ∧
    is_valid_commit_message "weird: add x".data = false ∧
    is_valid_commit_message "fix: ".data = false := by
  refine ⟨?_, by decide, by decide, by decide, by decide⟩
  intro s
  unfold is_valid_commit_message ConventionalMatch
  rw [List.any_eq_true]
  constructor
  · rintro ⟨t, ht, halt⟩
    obtain ⟨c, rest, hc, rfl⟩ := (matchTypeAlt_eq_true t.data s).mp halt
    exact ⟨t, ht, c, rest, hc, rfl⟩
  · rintro ⟨t, ht, c, rest, hc, rfl⟩
    exact ⟨t, ht, (matchTypeAlt_eq_true t.data _).mpr ⟨c, rest, hc, rfl⟩⟩

/-- Claim C10: the validator checks only the beginning of its input — any
string whose first characters form a valid tag-colon-space-description
portion is accepted, even when it continues with newline characters and
further lines; the single-line requirement is not enforced. -/
theorem C10_validator_checks_only_the_front :
    (∀ t : String, t ∈ CONVENTIONAL_TYPES →
      ∀ (c : Char) (rest : List Char), c ≠ '\n' →
        is_valid_commit_message (t.data ++ ':' :: ' ' :: c :: rest) = true) ∧
    is_valid_commit_message "feat: add x\nsecond line\nthird line".data = true := by
  refine ⟨?_, by decide⟩
  intro t ht c rest hc
  unfold is_valid_commit_message
  rw [List.any_eq_true]
  exact ⟨t, ht, (matchTypeAlt_eq_true t.data _).mpr ⟨c, rest, hc, rfl⟩⟩

/-- Witness for C10 at a concrete input: a message with a valid first line
and trailing lines is accepted. -/
theorem C10_validator_checks_only_the_front_witness :
    is_valid_commit_message ("fix".data ++ ':' :: ' ' :: 'y' :: "\nextra".data) = true :=
  C10_validator_checks_only_the_front.1 "fix" (by decide) 'y' "\nextra".data (by decide)

/-! ## Diff serializer and size limiter -/

/-- The boundary token `'\ndiff --git'` that `limit_diff_size` splits on
(src/goodgit.py line 274). -/
def diffSep : List Char := "\ndiff --git".data

/-- Python `str.split(sep)` for a non-empty separator, scanning left to
right for non-overlapping occurrences.  The fuel argument only drives
structural recursion: every step consumes at least one character of the
subject, so `fuel = subject.length` never runs out. -/
def splitOnSepFuel (sep : List Char) : Nat → List Char → List Char → List (List Char)
  | _, [], acc => [acc.reverse]
  | 0, l, acc => [acc.reverse ++ l]
  | fuel + 1, c :: cs, acc =>
      match litConsume sep (c :: cs) with
      | some rest => acc.reverse :: splitOnSepFuel sep fuel rest []
      | none => splitOnSepFuel sep fuel cs (c :: acc)

/-- Python `diff_text.split('\ndiff --git')`-style splitting. -/
def splitOnSep (sep l : List Char) : List (List Char) :=
  splitOnSepFuel sep l.length l []

/-- The accumulation loop of `limit_diff_size` (src/goodgit.py lines
276-281): each split piece is reconstructed as `'\ndiff --git' + piece`
and appended while the running length stays within `max_size`; the first
piece that would overflow stops the loop (`break`). -/
def accumulateSegs : List (List Char) → Nat → List Char → List Char
  | [], _, acc => acc
  | p :: rest, maxSize, acc =>
      let recon := diffSep ++ p
      if acc.length + recon.length > maxSize then acc
      else accumulateSegs rest maxSize (acc ++ recon)

/-- Embedding of `RepoManager.limit_diff_size` (src/goodgit.py lines
260-285).  When the text exceeds `max_size` it splits on `'\ndiff --git'`,
re-prefixes every piece with the separator, accumulates whole reconstructed
pieces under the cap and reports `was_truncated = len(limited) < len(diff)`;
otherwise it returns the text unchanged with `False`.  The source defaults
`max_size` to 3000. -/
def limit_diff_size (diff_text : List Char) (max_size : Nat) : List Char × Bool :=
  if diff_text.length > max_size then
    (accumulateSegs (splitOnSep diffSep diff_text) max_size [],
     decide ((accumulateSegs (splitOnSep diffSep diff_text) max_size []).length <
       diff_text.length))
  else (diff_text, false)

/-- Embedding of the CLI truncation of the diff submitted to the
text-generation backend (src/goodgit.py lines 1262-1266): a raw character
slice `diff[:5000]`. -/
def cli_limit_diff (diff : List Char) : List Char :=
  if diff.length > 5000 then diff.take 5000 else diff

lemma accumulateSegs_length_le (ps : List (List Char)) (maxSize : Nat) :
    ∀ acc : List Char, acc.length ≤ maxSize →
      (accumulateSegs ps maxSize acc).length ≤ maxSize := by
  induction ps with
  | nil => intro acc h; simpa [accumulateSegs] using h
  | cons p rest ih =>
    intro acc h
    simp only [accumulateSegs]
    split
    · exact h
    · rename_i hle
      exact ih _ (by simp only [List.length_append] at hle ⊢; omega)

lemma accumulateSegs_eq_join (ps : List (List Char)) (maxSize : Nat) :
    ∀ acc : List Char, ∃ k,
      accumulateSegs ps maxSize acc =
        acc ++ ((ps.take k).map (fun p => diffSep ++ p)).flatten := by
  induction ps with
  | nil => intro acc; exact ⟨0, by simp [accumulateSegs]⟩
  | cons p rest ih =>
    intro acc
    simp only [accumulateSegs]
    split
    · exact ⟨0, by simp⟩
    · obtain ⟨k, hk⟩ := ih (acc ++ (diffSep ++ p))
      exact ⟨k + 1, by simp [hk]⟩

/-- The concrete diff used to refute claim C2: two file segments of which
only the first fits the cap. -/
def C2D : String := "diff --gitAAAAAAAAAA\ndiff --gitBBBBBBBBBBBBBBBBBBBB"

/-- Claim C2 counterexample: at cap 40 the limiter keeps exactly the first
file segment, but prepends the separator token to it a second time, so the
returned text is not a prefix of the input diff (it begins with
`'\ndiff --gitdiff --git'`). -/
theorem C2_counterexample :
    40 < C2D.data.length ∧
    (limit_diff_size C2D.data 40).1 = "\ndiff --gitdiff --gitAAAAAAAAAA".data ∧
    ¬ (limit_diff_size C2D.data 40).1 <+: C2D.data := by
  refine ⟨by decide, by decide, ?_⟩
  intro h
  have h2 : (limit_diff_size C2D.data 40).1.isPrefixOf C2D.data = true := by
    rw [List.isPrefixOf_iff_prefix]; exact h
  revert h2; decide

/-- Claim C2 amended: a diff no longer than the cap is returned unchanged;
a longer diff is reduced to a concatenation of whole reconstructed
segments (each is `'\ndiff --git'` followed by one split piece, for an
initial run of the split pieces) whose total length never exceeds the cap,
with the truncation flag comparing the result length against the input
length — but that text is not in general a prefix of the input, because
the first piece also gets the separator prepended.  The CLI path submits a
raw character slice of the diff: a plain prefix with no segment-boundary
alignment. -/
theorem C2_amended :
    ∀ (diff_text : List Char) (max_size : Nat),
      (diff_text.length ≤ max_size →
        limit_diff_size diff_text max_size = (diff_text, false)) ∧
      (diff_text.length > max_size →
        (limit_diff_size diff_text max_size).1.length ≤ max_size ∧
        (∃ k, (limit_diff_size diff_text max_size).1 =
          (((splitOnSep diffSep diff_text).take k).map (fun p => diffSep ++ p)).flatten) ∧
        (limit_diff_size diff_text max_size).2 =
          decide ((limit_diff_size diff_text max_size).1.length < diff_text.length)) ∧
      cli_limit_diff diff_text <+: diff_text := by
  intro diff_text max_size
  refine ⟨?_, ?_, ?_⟩
  · intro h
    simp [limit_diff_size, Nat.not_lt.mpr h]
  · intro h
    have hif : limit_diff_size diff_text max_size =
        (accumulateSegs (splitOnSep diffSep diff_text) max_size [],
         decide ((accumulateSegs (splitOnSep diffSep diff_text) max_size []).length <
           diff_text.length)) := by
      unfold limit_diff_size
      rw [if_pos h]
    rw [hif]
    refine ⟨accumulateSegs_length_le _ _ [] (Nat.zero_le _), ?_, rfl⟩
    obtain ⟨k, hk⟩ := accumulateSegs_eq_join (splitOnSep diffSep diff_text) max_size []
    exact ⟨k, by simpa using hk⟩
  · unfold cli_limit_diff
    split
    · exact List.take_prefix 5000 diff_text
    · exact List.prefix_refl diff_text

/-- Witness for C2 amended at concrete inputs: a short diff is returned
unchanged, and the refuting diff at cap 40 obeys the amended bound and
whole-reconstructed-segment shape. -/
theorem C2_amended_witness :
    limit_diff_size "ab".data 5 = ("ab".data, false) ∧
    (limit_diff_size C2D.data 40).1.length ≤ 40 ∧
    (∃ k, (limit_diff_size C2D.data 40).1 =
      (((splitOnSep diffSep C2D.data).take k).map (fun p => diffSep ++ p)).flatten) :=
  ⟨(C2_amended "ab".data 5).1 (by decide),
   ((C2_amended C2D.data 40).2.1 (by decide)).1,
   ((C2_amended C2D.data 40).2.1 (by decide)).2.1⟩

/-- Claim C3 counterexample: on a 13-character input at cap 12 the limiter
returns `("", True)`, and re-applying it yields `("", False)` — the pair
equation `limit(limit(D,C).text, C) == limit(D,C)` fails because the
truncated flag is lost. -/
theorem C3_counterexample :
    limit_diff_size "0123456789ABC".data 12 = ([], true) ∧
    limit_diff_size (limit_diff_size "0123456789ABC".data 12).1 12 = ([], false) ∧
    limit_diff_size (limit_diff_size "0123456789ABC".data 12).1 12 ≠
      limit_diff_size "0123456789ABC".data 12 := by
  refine ⟨by decide, by decide, by decide⟩

/-- Claim C3 amended: re-applying the limiter to an already-limited text
reproduces that text exactly, but always with truncation flag `false`
(the output length never exceeds the cap, so the second application takes
the pass-through branch); the full pair equation only fails in the flag. -/
theorem C3_amended :
    ∀ (diff_text : List Char) (max_size : Nat),
      limit_diff_size (limit_diff_size diff_text max_size).1 max_size =
        ((limit_diff_size diff_text max_size).1, false) := by
  intro diff_text max_size
  have hlen : (limit_diff_size diff_text max_size).1.length ≤ max_size := by
    by_cases h : diff_text.length > max_size
    · unfold limit_diff_size
      rw [if_pos h]
      exact accumulateSegs_length_le _ _ [] (Nat.zero_le _)
    · unfold limit_diff_size
      rw [if_neg h]
      exact Nat.le_of_not_lt h
  generalize (limit_diff_size diff_text max_size).1 = L at hlen ⊢
  unfold limit_diff_size
  rw [if_neg (Nat.not_lt.mpr hlen)]

/-! ## Message generator and retry controller -/

/-- Characters removed by Python `str.strip()` (the ASCII whitespace the
Groq replies can carry). -/
def pyWhitespace (c : Char) : Bool :=
  c == ' ' || c == '\t' || c == '\n' || c == '\r' || c == '\x0b' || c == '\x0c'

/-- Python `str.strip()`: drop leading and trailing whitespace. -/
def pyStrip (l : List Char) : List Char :=
  ((l.dropWhile pyWhitespace).reverse.dropWhile pyWhitespace).reverse

/-- The possible outcomes of one call to the Groq chat-completion backend as
`APIManager.generate_commit_message` (src/goodgit.py lines 320-373)
distinguishes them: a reply with text content, a reply with no choices, an
exception whose text contains `context_length exceeded` (the backend's
payload-too-large report), and any other exception. -/
inductive ApiResult where
  | reply (content : List Char)
  | noChoices
  | contextLengthError
  | apiError
deriving DecidableEq

/-- Embedding of `APIManager.generate_commit_message`: the reply content is
stripped and returned; every failure — no choices, context-length exceeded,
or any other exception — is caught inside the method and converted to the
empty string (after an error dialog). -/
def generate_commit_message : ApiResult → List Char
  | .reply content => pyStrip content
  | .noChoices => []
  | .contextLengthError => []
  | .apiError => []

/-- Where `CommitGeneratorGUI._generate_message_thread`
(src/goodgit.py lines 961-1005) ends up: early return on an empty diff,
success with the first valid candidate, or the post-loop state in which
`ask_yes_no` offers manual entry. -/
inductive ThreadOutcome where
  | noDiff
  | success (attempt : Nat) (message : List Char)
  | exhaustedAwaitingManualChoice
deriving DecidableEq

/-- The `for attempt in range(1, max_retries + 1)` loop of
`_generate_message_thread` (src/goodgit.py lines 983-999), with the
backend behaviour on each attempt supplied by `api`.  The second component
counts the calls made to the generator; one call is made per iteration and
the loop returns on the first candidate that is non-empty and valid. -/
def retryLoop (api : Nat → ApiResult) : Nat → Nat → Nat → ThreadOutcome × Nat
  | 0, _, calls => (.exhaustedAwaitingManualChoice, calls)
  | remaining + 1, attempt, calls =>
      if !(generate_commit_message (api attempt)).isEmpty &&
          is_valid_commit_message (generate_commit_message (api attempt)) then
        (.success attempt (generate_commit_message (api attempt)), calls + 1)
      else retryLoop api remaining (attempt + 1) (calls + 1)

/-- Embedding of `_generate_message_thread`: `if not diff_text: return`,
otherwise run the retry loop starting at attempt 1.  `max_retries`
defaults to 3 in `generate_message` (src/goodgit.py line 946). -/
def generate_message_thread (diff_text : List Char) (api : Nat → ApiResult)
    (max_retries : Nat) : ThreadOutcome × Nat :=
  if diff_text.isEmpty then (.noDiff, 0)
  else retryLoop api max_retries 1 0

lemma retryLoop_exhaust (api : Nat → ApiResult)
    (h : ∀ n, is_valid_commit_message (generate_commit_message (api n)) = false) :
    ∀ (remaining attempt calls : Nat),
      retryLoop api remaining attempt calls =
        (ThreadOutcome.exhaustedAwaitingManualChoice, calls + remaining) := by
  intro remaining
  induction remaining with
  | zero => intro attempt calls; simp [retryLoop]
  | succ r ih =>
    intro attempt calls
    simp only [retryLoop, h attempt, Bool.and_false, Bool.false_eq_true, if_false]
    rw [ih (attempt + 1) (calls + 1)]
    have harith : calls + 1 + r = calls + (r + 1) := by omega
    rw [harith]

/-- Claim C4: when the generator/validator pair yields an invalid (or
empty) candidate on every attempt, the retry loop calls the generator
exactly `max_retries` times (the caller defaults this to 3), never more,
and ends in the exhausted state where `ask_yes_no` offers manual entry. -/
theorem C4_retry_exhaustion :
    ∀ (diff_text : List Char) (api : Nat → ApiResult) (max_retries : Nat),
      diff_text ≠ [] →
      (∀ n, is_valid_commit_message (generate_commit_message (api n)) = false) →
      generate_message_thread diff_text api max_retries =
        (ThreadOutcome.exhaustedAwaitingManualChoice, max_retries) := by
  intro diff_text api max_retries hdiff hinvalid
  unfold generate_message_thread
  rw [if_neg (by simpa [List.isEmpty_iff] using hdiff)]
  rw [retryLoop_exhaust api hinvalid max_retries 1 0, Nat.zero_add]

/-- Witness for C4: a generator stub that always replies `bogus` is called
exactly 3 times (the default) and the controller ends awaiting the manual
choice. -/
theorem C4_retry_exhaustion_witness :
    generate_message_thread "d".data (fun _ => ApiResult.reply "bogus".data) 3 =
      (ThreadOutcome.exhaustedAwaitingManualChoice, 3) :=
  C4_retry_exhaustion "d".data (fun _ => ApiResult.reply "bogus".data) 3
    (by decide)
    (fun _ => (by decide : is_valid_commit_message
      (generate_commit_message (ApiResult.reply "bogus".data)) = false))

/-- The generator stub refuting claim C5: the backend reports
context-length exceeded (payload too large) on attempt 1 and a valid reply
afterwards. -/
def fatalThenValidApi : Nat → ApiResult :=
  fun n => if n = 1 then ApiResult.contextLengthError else ApiResult.reply "feat: add x".data

/-- Claim C5 counterexample: with a payload-too-large failure on attempt 1,
the controller does not abort after one call — it retries, makes a second
call and succeeds on attempt 2, so the fatal error is neither propagated
nor does the pipeline stop at exactly one call. -/
theorem C5_counterexample :
    generate_message_thread "d".data fatalThenValidApi 3 =
      (ThreadOutcome.success 2 "feat: add x".data, 2) ∧
    (generate_message_thread "d".data fatalThenValidApi 3).2 ≠ 1 := by
  refine ⟨by decide, by decide⟩

/-- Claim C5 amended: no fatal short-circuit exists.
`generate_commit_message` converts a context-length-exceeded (payload too
large) failure into the empty-string candidate, and the retry loop treats
it exactly like an invalid candidate: the attempt is consumed and the loop
continues; a backend that fails this way on every attempt drives the
controller through all `max_retries` calls to the exhausted manual-choice
state instead of aborting after the first. -/
theorem C5_no_fatal_short_circuit :
    ∀ (diff_text : List Char) (api : Nat → ApiResult)
      (max_retries r attempt calls : Nat),
      (diff_text ≠ [] → (∀ n, api n = ApiResult.contextLengthError) →
        generate_message_thread diff_text api max_retries =
          (ThreadOutcome.exhaustedAwaitingManualChoice, max_retries)) ∧
      (api attempt = ApiResult.contextLengthError →
        retryLoop api (r + 1) attempt calls = retryLoop api r (attempt + 1) (calls + 1)) := by
  intro diff_text api max_retries r attempt calls
  constructor
  · intro hdiff hall
    unfold generate_message_thread
    rw [if_neg (by simpa [List.isEmpty_iff] using hdiff)]
    rw [retryLoop_exhaust api (fun n => by rw [hall n]; rfl) max_retries 1 0, Nat.zero_add]
  · intro herr
    simp [retryLoop, herr, generate_commit_message]

/-- Witness for C5 amended: an always-context-length-failing backend is
retried through all 3 default attempts, and one failing attempt steps the
loop to the next attempt. -/
theorem C5_no_fatal_short_circuit_witness :
    generate_message_thread "d".data (fun _ => ApiResult.contextLengthError) 3 =
      (ThreadOutcome.exhaustedAwaitingManualChoice, 3) ∧
    retryLoop (fun _ => ApiResult.contextLengthError) 3 1 0 =
      retryLoop (fun _ => ApiResult.contextLengthError) 2 2 1 :=
  ⟨(C5_no_fatal_short_circuit "d".data (fun _ => ApiResult.contextLengthError) 3 0 0 0).1
      (by decide) (fun _ => rfl),
   (C5_no_fatal_short_circuit "d".data (fun _ => ApiResult.contextLengthError) 3 2 1 0).2 rfl⟩

/-! ## Commit and push executor -/

/-- Where `CommitGeneratorGUI.commit_message` (src/goodgit.py lines
1007-1027) can end up: no repository manager, an empty trimmed message
(warning, nothing committed), a commit delegated to the VCS layer, or a
reported VCS failure. -/
inductive CommitOutcome where
  | noRepo
  | emptyMessage
  | committed (msg : List Char)
  | vcsFailure
deriving DecidableEq

/-- Embedding of `CommitGeneratorGUI.commit_message` together with
`RepoManager.commit_changes` (src/goodgit.py lines 186-208).  `staged` is
the repository's staged change set and `vcsCommitOk` the success of the
underlying `repo.index.commit` call; the source consults neither the
staged set's emptiness nor anything else about it before delegating. -/
def commit_message_action (hasRepoManager : Bool) (textArea : List Char)
    (staged : List (List Char)) (vcsCommitOk : List Char → Bool) : CommitOutcome :=
  if !hasRepoManager then .noRepo
  else if (pyStrip textArea).isEmpty then .emptyMessage
  else if vcsCommitOk (pyStrip textArea) then .committed (pyStrip textArea)
  else .vcsFailure

/-- Claim C6 counterexample: with a repository manager, a non-empty
message, and an empty staged set, the operation still commits — there is
no `NothingStaged` failure path anywhere in the code, so an invocation
with nothing staged does not fail without committing. -/
theorem C6_counterexample :
    commit_message_action true "feat: add x".data [] (fun _ => true) =
      CommitOutcome.committed "feat: add x".data ∧
    commit_message_action true "feat: add x".data [] (fun _ => true) =
      commit_message_action true "feat: add x".data ["staged_file".data] (fun _ => true) := by
  refine ⟨by decide, by decide⟩

/-- Claim C6 amended: the commit operation requires only a repository
manager and a non-empty trimmed message — an empty trimmed message warns
and does not commit, otherwise the message is delegated to the
version-control layer, reporting a failure when that layer fails; no
staged-change precondition is enforced, and the outcome is entirely
independent of the staged set. -/
theorem C6_commit_requirements :
    ∀ (hasRepoManager : Bool) (textArea : List Char)
      (staged staged' : List (List Char)) (vcsCommitOk : List Char → Bool),
      (hasRepoManager = false →
        commit_message_action hasRepoManager textArea staged vcsCommitOk =
          CommitOutcome.noRepo) ∧
      (hasRepoManager = true → pyStrip textArea = [] →
        commit_message_action hasRepoManager textArea staged vcsCommitOk =
          CommitOutcome.emptyMessage) ∧
      (hasRepoManager = true → pyStrip textArea ≠ [] →
        commit_message_action hasRepoManager textArea staged vcsCommitOk =
          (if vcsCommitOk (pyStrip textArea) then
            CommitOutcome.committed (pyStrip textArea)
          else CommitOutcome.vcsFailure)) ∧
      commit_message_action hasRepoManager textArea staged vcsCommitOk =
        commit_message_action hasRepoManager textArea staged' vcsCommitOk := by
  intro hasRepoManager textArea staged staged' vcsCommitOk
  refine ⟨?_, ?_, ?_, rfl⟩
  · rintro rfl
    rfl
  · rintro rfl hempty
    simp [commit_message_action, List.isEmpty_iff, hempty]
  · rintro rfl hne
    simp only [commit_message_action, Bool.not_true, Bool.false_eq_true, if_false]
    rw [if_neg (by simpa [List.isEmpty_iff] using hne)]

/-- Witness for C6 amended at concrete inputs: missing manager, an
all-whitespace message, and a normal commit. -/
theorem C6_commit_requirements_witness :
    commit_message_action false "feat: x".data [] (fun _ => true) = CommitOutcome.noRepo ∧
    commit_message_action true "   ".data [] (fun _ => true) = CommitOutcome.emptyMessage ∧
    commit_message_action true " feat: x ".data [] (fun _ => true) =
      (if (fun _ => true) (pyStrip " feat: x ".data) then
        CommitOutcome.committed (pyStrip " feat: x ".data)
      else CommitOutcome.vcsFailure) :=
  ⟨(C6_commit_requirements false "feat: x".data [] [] (fun _ => true)).1 rfl,
   (C6_commit_requirements true "   ".data [] [] (fun _ => true)).2.1 rfl (by decide),
   (C6_commit_requirements true " feat: x ".data [] [] (fun _ => true)).2.2.1 rfl (by decide)⟩

/-- One observable VCS interaction of the CLI tail (src/goodgit.py lines
1307-1321): a call to `commit_changes` or `push_changes` with the success
it reported. -/
inductive CliEvent where
  | commitAttempt (ok : Bool)
  | pushAttempt (ok : Bool)
deriving DecidableEq

/-- Embedding of the CLI commit/push tail (src/goodgit.py lines
1307-1321): under `--commit` the CLI calls `commit_changes` — whose
boolean result it discards — and then, under `--push`, calls
`push_changes`; `commit_changes` catches its own exceptions and returns
`False`, so the surrounding `except` clauses never suppress the push. -/
def cli_commit_push (commitFlag pushFlag commitOk pushOk : Bool) : List CliEvent :=
  if commitFlag then
    CliEvent.commitAttempt commitOk ::
      (if pushFlag then [CliEvent.pushAttempt pushOk] else [])
  else []

/-- Claim C7 counterexample: running the CLI with `--commit --push` when
the commit fails still issues the push — the execution contains a push
with no previously successful commit. -/
theorem C7_counterexample :
    cli_commit_push true true false true =
      [CliEvent.commitAttempt false, CliEvent.pushAttempt true] ∧
    CliEvent.pushAttempt true ∈ cli_commit_push true true false true ∧
    CliEvent.commitAttempt true ∉ cli_commit_push true true false true := by
  refine ⟨by decide, by decide, by decide⟩

/-- Claim C7 amended: a push is only ever issued when both `--commit` and
`--push` are given, and then the trace is exactly a commit attempt
followed by the push — the push follows a commit *attempt*, but it is
issued regardless of whether that commit succeeded, because the CLI
discards the boolean result of `commit_changes`. -/
theorem C7_push_follows_commit_attempt :
    ∀ (commitFlag pushFlag commitOk pushOk : Bool),
      (∃ b, CliEvent.pushAttempt b ∈ cli_commit_push commitFlag pushFlag commitOk pushOk) →
        commitFlag = true ∧ pushFlag = true ∧
        cli_commit_push commitFlag pushFlag commitOk pushOk =
          [CliEvent.commitAttempt commitOk, CliEvent.pushAttempt pushOk] := by
  decide

/-- Witness for C7 amended: with both flags set and a failed commit, the
trace is the commit attempt followed by the push attempt. -/
theorem C7_push_follows_commit_attempt_witness :
    true = true ∧ true = true ∧
    cli_commit_push true true false true =
      [CliEvent.commitAttempt false, CliEvent.pushAttempt true] :=
  C7_push_follows_commit_attempt true true false true ⟨true, by decide⟩

/-! ## Change classifier -/

/-- One GitPython diff entry as `populate_files` reads it: the change
type character, the `a` path and the `b` path (for a rename, old and new
path respectively). -/
structure GitDiffItem where
  change_type : Char
  a_path : List Char
  b_path : List Char
deriving DecidableEq

/-- The status tag attached to each displayed file entry. -/
inductive FileStatus where
  | staged
  | unstaged
  | untracked
  | renamed
deriving DecidableEq

/-- A display entry: the path text (for renames, `old -> new`) and its
status tag. -/
abbrev FileEntry := List Char × FileStatus

/-- The `' -> '` joining token used for rename entries. -/
def arrowSep : List Char := " -> ".data

/-- Embedding of the list-building part of `CommitGeneratorGUI.populate_files`
(src/goodgit.py lines 810-834): three sequential loops append to
`changed_files_list` — staged diffs first, then unstaged diffs, then
untracked files — and a diff item with change type `'R'` contributes the
single entry `old -> new` tagged `renamed` instead of two entries. -/
def populate_files (staged_changes changed_files : List GitDiffItem)
    (untracked_files : List (List Char)) : List FileEntry :=
  untracked_files.foldl (fun acc p => acc ++ [(p, FileStatus.untracked)])
    (changed_files.foldl
      (fun acc item =>
        if item.change_type = 'R' then
          acc ++ [(item.a_path ++ arrowSep ++ item.b_path, FileStatus.renamed)]
        else acc ++ [(item.a_path, FileStatus.unstaged)])
      (staged_changes.foldl
        (fun acc item =>
          if item.change_type = 'R' then
            acc ++ [(item.a_path ++ arrowSep ++ item.b_path, FileStatus.renamed)]
          else acc ++ [(item.a_path, FileStatus.staged)])
        []))

/-- The classifier contract as the specification words it: one entry per
item, renames collapsed to a single `Renamed` entry carrying both paths. -/
def specEntry (partition : FileStatus) (item : GitDiffItem) : FileEntry :=
  if item.change_type = 'R' then
    (item.a_path ++ arrowSep ++ item.b_path, FileStatus.renamed)
  else (item.a_path, partition)

/-- The ordered output the specification describes: all staged entries,
then all unstaged entries, then all untracked entries, each partition in
the order reported by the version-control layer. -/
def classifierSpec (staged unstaged : List GitDiffItem)
    (untracked : List (List Char)) : List FileEntry :=
  staged.map (specEntry FileStatus.staged) ++
    unstaged.map (specEntry FileStatus.unstaged) ++
    untracked.map (fun p => (p, FileStatus.untracked))

lemma foldl_append_singleton {α β : Type} (f : α → β) (l : List α) :
    ∀ init : List β,
      l.foldl (fun acc x => acc ++ [f x]) init = init ++ l.map f := by
  induction l with
  | nil => intro init; simp
  | cons x xs ih => intro init; simp [ih, List.append_assoc]

lemma foldl_entry_eq_map (tag : FileStatus) (items : List GitDiffItem) :
    ∀ init : List FileEntry,
      items.foldl
        (fun acc item =>
          if item.change_type = 'R' then
            acc ++ [(item.a_path ++ arrowSep ++ item.b_path, FileStatus.renamed)]
          else acc ++ [(item.a_path, tag)]) init =
        init ++ items.map (specEntry tag) := by
  induction items with
  | nil => intro init; simp
  | cons item rest ih =>
    intro init
    rw [List.foldl_cons]
    by_cases h : item.change_type = 'R'
    · rw [if_pos h, ih, List.map_cons]
      simp [specEntry, h, List.append_assoc]
    · rw [if_neg h, ih, List.map_cons]
      simp [specEntry, h, List.append_assoc]

/-- Claim C8: the classifier produces all staged entries first, then all
unstaged entries, then all untracked entries, stable inside each partition
in the order reported by the version-control layer; each rename pair
yields exactly one `renamed` entry carrying the old and the new path, so
the output has exactly one entry per reported item. -/
theorem C8_classifier_order_and_renames :
    ∀ (staged unstaged : List GitDiffItem) (untracked : List (List Char)),
      populate_files staged unstaged untracked = classifierSpec staged unstaged untracked ∧
      (populate_files staged unstaged untracked).length =
        staged.length + unstaged.length + untracked.length ∧
      ∀ item : GitDiffItem, item.change_type = 'R' →
        specEntry FileStatus.staged item =
          (item.a_path ++ arrowSep ++ item.b_path, FileStatus.renamed) ∧
        specEntry FileStatus.unstaged item =
          (item.a_path ++ arrowSep ++ item.b_path, FileStatus.renamed) := by
  intro staged unstaged untracked
  have hmain : populate_files staged unstaged untracked =
      classifierSpec staged unstaged untracked := by
    unfold populate_files classifierSpec
    rw [foldl_entry_eq_map FileStatus.staged staged []]
    rw [foldl_entry_eq_map FileStatus.unstaged unstaged]
    rw [foldl_append_singleton (fun p => (p, FileStatus.untracked)) untracked]
    simp [List.append_assoc]
  refine ⟨hmain, ?_, ?_⟩
  · rw [hmain]
    simp only [classifierSpec, List.length_append, List.length_map]
  · intro item hR
    constructor <;> simp [specEntry, hR]

/-- Witness for C8 at a concrete repository state: one staged rename, one
staged modification, one unstaged modification and one untracked file come
out in partition order with the rename collapsed to a single entry. -/
theorem C8_classifier_order_and_renames_witness :
    populate_files
        [⟨'R', "old.py".data, "new.py".data⟩, ⟨'M', "app.py".data, "app.py".data⟩]
        [⟨'M', "lib.py".data, "lib.py".data⟩]
        ["README.md".data] =
      classifierSpec
        [⟨'R', "old.py".data, "new.py".data⟩, ⟨'M', "app.py".data, "app.py".data⟩]
        [⟨'M', "lib.py".data, "lib.py".data⟩]
        ["README.md".data] ∧
    specEntry FileStatus.staged ⟨'R', "old.py".data, "new.py".data⟩ =
      ("old.py -> new.py".data, FileStatus.renamed) :=
  ⟨(C8_classifier_order_and_renames
      [⟨'R', "old.py".data, "new.py".data⟩, ⟨'M', "app.py".data, "app.py".data⟩]
      [⟨'M', "lib.py".data, "lib.py".data⟩]
      ["README.md".data]).1,
   by decide⟩

/-! ## Repository initialization and bare repositories -/

/-- The GitPython repository handle as `RepoManager` consumes it: only its
bareness is inspected by the guarded initialization. -/
structure GitRepo where
  bare : Bool
deriving DecidableEq

/-- The error kinds `RepoManager.get_repo` (src/goodgit.py lines 83-111)
can raise: a `GitCommandError` with a message, or any other exception from
opening the repository. -/
inductive RepoError where
  | gitCommandError (msg : List Char)
  | otherError
deriving DecidableEq

/-- Embedding of `RepoManager.get_repo`: `Repo(path, ...)` either raises
(propagated) or yields a handle; a bare handle raises
`GitCommandError("Repository is bare.", 1)`, otherwise the handle is
returned. -/
def get_repo (opened : Except RepoError GitRepo) : Except RepoError GitRepo :=
  match opened with
  | .error e => .error e
  | .ok repo =>
      if repo.bare then .error (.gitCommandError "Repository is bare.".data)
      else .ok repo

/-- The manager holding the session's active repository handle. -/
structure RepoManager where
  repo : GitRepo
deriving DecidableEq

/-- Embedding of `RepoManager.__init__` (src/goodgit.py lines 72-81): the
handle stored in `self.repo` is whatever `get_repo` returns, and a raise
inside `get_repo` aborts construction. -/
def RepoManager.construct (opened : Except RepoError GitRepo) :
    Except RepoError RepoManager :=
  match get_repo opened with
  | .error e => .error e
  | .ok r => .ok ⟨r⟩

/-- Claim C9: opening a bare repository makes initialization fail fast
with the raised `GitCommandError("Repository is bare.")`, and every
successfully constructed manager holds a non-bare handle — a bare
repository is never installed as the active repository handle. -/
theorem C9_bare_repository_rejected :
    ∀ (opened : Except RepoError GitRepo) (repo : GitRepo) (mgr : RepoManager),
      (opened = Except.ok repo → repo.bare = true →
        RepoManager.construct opened =
          Except.error (RepoError.gitCommandError "Repository is bare.".data)) ∧
      (RepoManager.construct opened = Except.ok mgr → mgr.repo.bare = false) := by
  intro opened repo mgr
  constructor
  · rintro rfl hbare
    simp [RepoManager.construct, get_repo, hbare]
  · intro hok
    match opened with
    | .error e => simp [RepoManager.construct, get_repo] at hok
    | .ok r =>
      by_cases hbare : r.bare
      · simp [RepoManager.construct, get_repo, hbare] at hok
      · simp only [RepoManager.construct, get_repo, hbare, if_false,
          Bool.false_eq_true] at hok
        cases hok
        simpa using hbare

/-- Witness for C9 at concrete handles: a bare handle is rejected and a
non-bare handle yields a manager holding a non-bare repository. -/
theorem C9_bare_repository_rejected_witness :
    RepoManager.construct (Except.ok ⟨true⟩) =
      Except.error (RepoError.gitCommandError "Repository is bare.".data) ∧
    (⟨⟨false⟩⟩ : RepoManager).repo.bare = false :=
  ⟨(C9_bare_repository_rejected (Except.ok ⟨true⟩) ⟨true⟩ ⟨⟨false⟩⟩).1 rfl rfl,
   (C9_bare_repository_rejected (Except.ok ⟨false⟩) ⟨false⟩ ⟨⟨false⟩⟩).2 rfl⟩

end GoodGit
